import Mathlib

/-!
  Verification of the product REST API backend
  (Express + express-validator + Sequelize).

  The development shallowly embeds the request-validation-and-resource-mutation
  pipeline: request bodies, the per-operation validation chains, the
  `handleInputErrors` gate, the resource handlers, and the data-access
  operations on an explicit in-memory store state.  The CORS gate and the
  startup sequence of `server.ts` are embedded as pure functions over the
  relevant inputs (origin header, environment variable, database outcomes).
-/

namespace ProductApi

/-- A JSON value supplied for the `price` field of a request body: either a
numeric value or something non-numeric (a non-numeric string, object, ...).
`express-validator`'s `isNumeric` accepts exactly the numeric case. -/
inductive PriceField where
  | num (n : Int)
  | nonNumeric
deriving DecidableEq

/-- A JSON value supplied for the `availability` field of a request body:
either a boolean or something non-boolean. -/
inductive BoolField where
  | bool (b : Bool)
  | nonBoolean
deriving DecidableEq

/-- One element of the `errors` array produced by `express-validator`:
the failing field and its human-readable message. -/
structure FieldError where
  field : String
  msg : String
deriving DecidableEq

/-- A persisted Product record (model `Product` of `Product.model.ts`,
src/unnamed/part_000 lines 190-209): surrogate `id`, `name` (STRING(100)
column), `price` (FLOAT column, embedded as an integer since no claim
depends on fractional prices), `availability` (BOOLEAN, default true). -/
structure Product where
  id : Nat
  name : String
  price : Int
  availability : Bool
deriving DecidableEq

/-- The record store owned by the data-access collaborator: the next surrogate
id to assign and the list of persisted rows. -/
structure Store where
  nextId : Nat
  rows : List Product
deriving DecidableEq

/-- The empty store the test database starts from. -/
def store0 : Store := { nextId := 1, rows := [] }

/-- The JSON body of an outbound response: a validation-error envelope
`\x7b errors: [...] \x7d`, a success envelope `\x7b data: ... \x7d` holding a
record, a record list or a string, or a flat `\x7b error: ... \x7d`. -/
inductive ResBody where
  | errors (errs : List FieldError)
  | dataRecord (p : Product)
  | dataRecords (ps : List Product)
  | dataMsg (s : String)
  | errMsg (s : String)
deriving DecidableEq

/-- An outbound HTTP response: status code and JSON body. -/
structure Response where
  status : Nat
  body : ResBody
deriving DecidableEq

/-- The body of a create (`POST /api/products`) request; every field may be
absent. -/
structure CreateBody where
  name : Option String
  price : Option PriceField
  availability : Option Bool
deriving DecidableEq

/-- The body of a full-update (`PUT /api/products/:id`) request. -/
structure UpdateBody where
  name : Option String
  price : Option PriceField
  availability : Option BoolField
deriving DecidableEq

/-- The check `body("name").notEmpty().withMessage("El nombre de Producto no
puede ir vacio")` (src/unnamed/part_000 lines 141-143): fails on an absent
name and on the empty string. -/
def notEmptyName : Option String → List FieldError
  | none => [⟨"name", "El nombre de Producto no puede ir vacio"⟩]
  | some s => if s = "" then [⟨"name", "El nombre de Producto no puede ir vacio"⟩] else []

/-- The check `body("price").isNumeric().withMessage("Valor no válido")`
(src/unnamed/part_000 lines 144-146): fails unless the field holds a numeric
value. -/
def numericPriceErrs : Option PriceField → List FieldError
  | some (.num _) => []
  | _ => [⟨"price", "Valor no válido"⟩]

/-- The check `.custom((value) => value > 0).withMessage("Precio no válido")`
(src/unnamed/part_000 lines 147-148): in JavaScript `value > 0` is false for
`undefined` and for non-numeric values, so the check fails unless the field
holds a numeric value strictly greater than 0. -/
def positivePriceErrs : Option PriceField → List FieldError
  | some (.num n) => if 0 < n then [] else [⟨"price", "Precio no válido"⟩]
  | _ => [⟨"price", "Precio no válido"⟩]

/-- The validation chain of `router.post("/", ...)` (src/unnamed/part_000
lines 139-151): the declared checks all run and their violations are
aggregated in declaration order. -/
def validateCreate (b : CreateBody) : List FieldError :=
  notEmptyName b.name ++ (numericPriceErrs b.price ++ positivePriceErrs b.price)

/-- The check `body("availability").isBoolean()` of the full-update chain.
Modelled from the spec: the `PUT` validation chain is not under src/; §4.1
requires `availability` boolean. -/
def booleanAvailabilityErrs : Option BoolField → List FieldError
  | some (.bool _) => []
  | _ => [⟨"availability", "Valor no válido"⟩]

/-- Modelled from the spec: the validation chain of `router.put("/:id", ...)`
is not under src/; §4.1 requires `name` non-empty, `price` numeric and > 0,
`availability` boolean (the path id is integer by the embedding's typing). -/
def validateUpdate (b : UpdateBody) : List FieldError :=
  notEmptyName b.name ++
    (numericPriceErrs b.price ++ positivePriceErrs b.price) ++
      booleanAvailabilityErrs b.availability

/-- The middleware `handleInputErrors` (src/unnamed/part_000 lines 157-168):
collect the aggregated validation result; if non-empty, respond 400 with
`\x7b errors: [...] \x7d` and do not call the next handler; otherwise pass
control unchanged to the handler. -/
def handleInputErrors {β : Type} (checks : β → List FieldError)
    (handler : β → Store → Response × Store) (b : β) (s : Store) :
    Response × Store :=
  let errs := checks b
  if errs.isEmpty then handler b s
  else ({ status := 400, body := .errors errs }, s)

/-- The data-access operation `Product.create(req.body)` (src/unnamed/part_000
line 216): assigns the next surrogate id, stores the supplied fields, and
applies the declared `@Default(true)` for `availability` (lines 204-208) when
the field is absent. -/
def Store.createRecord (s : Store) (b : CreateBody) : Product × Store :=
  let p : Product :=
    { id := s.nextId
      name := b.name.getD ""
      price := match b.price with | some (.num n) => n | _ => 0
      availability := b.availability.getD true }
  (p, { nextId := s.nextId + 1, rows := p :: s.rows })

/-- The data-access operation `Product.findByPk(id)` (src/unnamed/part_000
line 220): the row with the given surrogate id, if any. -/
def Store.findByPk (s : Store) (i : Nat) : Option Product :=
  s.rows.find? (fun p => p.id == i)

/-- Ordering relation used by the list operation: `a` may precede `b` when
`a`'s id is at least `b`'s (id descending). -/
def idGe (a b : Product) : Prop := b.id ≤ a.id

instance : DecidableRel idGe := fun a b => Nat.decLe b.id a.id

instance : IsTotal Product idGe :=
  ⟨fun a b => (Nat.le_total b.id a.id).imp id id⟩

instance : IsTrans Product idGe :=
  ⟨fun _ _ _ hab hbc => Nat.le_trans hbc hab⟩

/-- The data-access operation
`Product.findAll(\x7b order: [["id", "DESC"]] \x7d)` (src/unnamed/part_000
line 219): every row, ordered by id descending. -/
def Store.findAllDesc (s : Store) : List Product :=
  s.rows.insertionSort idGe

/-- The fixed not-found response (src/unnamed/part_000 lines 174-176). -/
def notFoundResponse : Response :=
  { status := 404, body := .errMsg "Producto No Encontrado" }

/-- Modelled from the spec: the handler `getProducts` of `handlers/product.ts`
is not under src/; §4.2 — `list()` then 200 with `\x7b data: [...] \x7d`
ordered by id descending (the data-access call is part_000 line 219). -/
def getProducts (s : Store) : Response × Store :=
  ({ status := 200, body := .dataRecords s.findAllDesc }, s)

/-- Modelled from the spec: the handler `getProductById` of
`handlers/product.ts` is not under src/; §4.2 — get-by-id, absent → 404 with
the fixed message (part_000 lines 174-176), present → 200 with
`\x7b data: record \x7d`. -/
def getProductById (i : Nat) (s : Store) : Response × Store :=
  match s.findByPk i with
  | none => (notFoundResponse, s)
  | some p => ({ status := 200, body := .dataRecord p }, s)

/-- Modelled from the spec: the handler `createProduct` of
`handlers/product.ts` is not under src/; §4.2 — `create(fields)` (part_000
line 216) then 201 with `\x7b data: record \x7d` (part_000 line 180). -/
def createProduct (b : CreateBody) (s : Store) : Response × Store :=
  let r := s.createRecord b
  ({ status := 201, body := .dataRecord r.1 }, r.2)

/-- Modelled from the spec: the handler `updateProduct` of
`handlers/product.ts` is not under src/; §4.2 — get-by-id, absent → 404,
present → overwrite the record's fields from the validated body
(`product.update(req.body)`, part_000 line 223) and respond 200. -/
def updateProduct (i : Nat) (b : UpdateBody) (s : Store) : Response × Store :=
  match s.findByPk i with
  | none => (notFoundResponse, s)
  | some p =>
    let p' : Product :=
      { id := p.id
        name := b.name.getD p.name
        price := match b.price with | some (.num n) => n | _ => p.price
        availability := match b.availability with | some (.bool v) => v | _ => p.availability }
    ({ status := 200, body := .dataRecord p' },
     { s with rows := s.rows.map (fun q => if q.id = i then p' else q) })

/-- Modelled from the spec: the handler `updateAvailability` of
`handlers/product.ts` is not under src/; §4.2/§3 — get-by-id, absent → 404,
present → set `availability = !availability` (the toggle reads no body field)
and persist (`product.save()`, part_000 line 224), respond 200. -/
def updateAvailability (i : Nat) (s : Store) : Response × Store :=
  match s.findByPk i with
  | none => (notFoundResponse, s)
  | some p =>
    let p' : Product := { p with availability := !p.availability }
    ({ status := 200, body := .dataRecord p' },
     { s with rows := s.rows.map (fun q => if q.id = i then p' else q) })

/-- Modelled from the spec: the handler `deleteProduct` of
`handlers/product.ts` is not under src/; §4.2 — get-by-id, absent → 404,
present → remove the record permanently (`product.destroy()`, part_000
line 227) and respond 200 with `\x7b data: "Producto Eliminado" \x7d`. -/
def deleteProduct (i : Nat) (s : Store) : Response × Store :=
  match s.findByPk i with
  | none => (notFoundResponse, s)
  | some _ =>
    ({ status := 200, body := .dataMsg "Producto Eliminado" },
     { s with rows := s.rows.eraseP (fun q => q.id == i) })

/-- The `POST /api/products` route: the create validation chain, then
`handleInputErrors`, then the create handler (src/unnamed/part_000
lines 139-151). -/
def runCreate (b : CreateBody) (s : Store) : Response × Store :=
  handleInputErrors validateCreate createProduct b s

/-- The `PUT /api/products/:id` route: the full-update validation chain, then
`handleInputErrors`, then the update handler. -/
def runUpdate (i : Nat) (b : UpdateBody) (s : Store) : Response × Store :=
  handleInputErrors validateUpdate (updateProduct i) b s

/-- The `PATCH /api/products/:id` route: only the path id is validated (here
by typing), and the toggle handler reads no body. -/
def runPatch (i : Nat) (s : Store) : Response × Store :=
  updateAvailability i s

/-- The `PATCH` route applied to a request that carries a body: the handler
ignores it, so the client cannot supply the new availability value. -/
def runPatchWithBody (i : Nat) (_b : UpdateBody) (s : Store) : Response × Store :=
  updateAvailability i s

/-- A mutating operation of the REST surface, as routed through its
validation chain. -/
inductive Op where
  | create (b : CreateBody)
  | update (i : Nat) (b : UpdateBody)
  | toggle (i : Nat)

/-- The store left behind by one routed operation. -/
def applyOp (s : Store) : Op → Store
  | .create b => (runCreate b s).2
  | .update i b => (runUpdate i b s).2
  | .toggle i => (runPatch i s).2

/-- The store left behind by a sequence of routed operations. -/
def applyOps (s : Store) (ops : List Op) : Store := ops.foldl applyOp s

/-- A stored record as constrained by the validation stage: positive price
and non-empty name (`availability` is a non-null boolean by type). -/
def GoodRecord (p : Product) : Prop := 0 < p.price ∧ p.name ≠ ""

/-- Every persisted row satisfies the validation-stage constraints. -/
def StoreInv (s : Store) : Prop := ∀ p ∈ s.rows, GoodRecord p

/-- The CORS gate of `server.ts` (src/unnamed/part_001 lines 170-178):
`origin === process.env.FRONTEND_URL` allows, anything else is rejected with
`new Error("Error de CORS")`; both sides may be `undefined` (no Origin
header / unset variable), and `undefined === undefined` holds. -/
def corsOrigin (origin frontendUrl : Option String) : Except String Unit :=
  if origin = frontendUrl then .ok () else .error "Error de CORS"

/-- The log line of `connectDB`'s catch branch (src/unnamed/part_001
line 157). -/
def dbErrorLog : String := "❌ Hubo un error al conectar a la BD"

/-- The function `connectDB` (src/unnamed/part_001 lines 151-159):
authenticate, then sync; any failure of either is caught and logged, and
nothing is rethrown. -/
def connectDB (auth sync : Except String Unit) : List String :=
  match auth with
  | .error _ => [dbErrorLog]
  | .ok _ =>
    match sync with
    | .error _ => [dbErrorLog]
    | .ok _ => []

/-- The startup outcome of `server.ts`: whether the Express server object was
created and exported, and the log lines produced. -/
structure Startup where
  serverCreated : Bool
  logs : List String
deriving DecidableEq

/-- The module body of `server.ts` (src/unnamed/part_001 lines 161-194): run
`connectDB` (which swallows its errors), then unconditionally create and
export the Express server. -/
def startServer (auth sync : Except String Unit) : Startup :=
  { serverCreated := true, logs := connectDB auth sync }

/-- A request handled against a database connection that may have failed:
handlers await the data-access call without a catch, so a failed connection
propagates as an unhandled fault. -/
def handleWithDb (db : Except String Store)
    (handle : Store → Response × Store) : Except String (Response × Store) :=
  match db with
  | .error e => .error e
  | .ok s => .ok (handle s)

/-- A create body failing both field checks: empty name and non-numeric
price. -/
def sampleBadBody : CreateBody :=
  { name := some "", price := some .nonNumeric, availability := none }

/-- A create body passing every check, with `availability` not supplied. -/
def sampleGoodBody : CreateBody :=
  { name := some "Mouse - testing", price := some (.num 50), availability := none }

/-- A store holding two records, inserted in ascending id order. -/
def sampleStore : Store :=
  { nextId := 3
    rows := [{ id := 1, name := "Monitor", price := 300, availability := true },
             { id := 2, name := "Teclado", price := 80, availability := false }] }

/-- A name of 101 characters, exceeding the STRING(100) column width. -/
def longName : String := String.mk (List.replicate 101 'a')

/-- A create body whose name has 101 characters and which satisfies every
check the create validation chain declares. -/
def longNameBody : CreateBody :=
  { name := some longName, price := some (.num 50), availability := none }

/-- A valid full-update body. -/
def sampleUpdateBody : UpdateBody :=
  { name := some "Mouse Pro", price := some (.num 75),
    availability := some (.bool true) }

lemma gate_pass {β : Type} (checks : β → List FieldError)
    (handler : β → Store → Response × Store) (b : β) (s : Store)
    (h : checks b = []) :
    handleInputErrors checks handler b s = handler b s := by
  simp [handleInputErrors, h]

lemma gate_fail {β : Type} (checks : β → List FieldError)
    (handler : β → Store → Response × Store) (b : β) (s : Store)
    (h : checks b ≠ []) :
    handleInputErrors checks handler b s
      = ({ status := 400, body := .errors (checks b) }, s) := by
  simp [handleInputErrors, List.isEmpty_iff, h]

/-- C1: when one or more declared checks fail, the pipeline responds 400 with
the full aggregated violation list and never invokes the handler (the result
is the same for every handler, and the store is untouched); when every check
passes, control passes unchanged to the handler. -/
theorem validation_stage_gate {β : Type} (checks : β → List FieldError)
    (b : β) (s : Store) :
    (checks b = [] →
      ∀ handler, handleInputErrors checks handler b s = handler b s)
    ∧ (checks b ≠ [] →
      ∀ handler, handleInputErrors checks handler b s
        = ({ status := 400, body := .errors (checks b) }, s)) := by
  constructor
  · intro h handler
    exact gate_pass checks handler b s h
  · intro h handler
    exact gate_fail checks handler b s h

/-- C1 witness: a body failing the name check and both price checks is
answered 400 with all three violations listed, the store untouched. -/
theorem validation_stage_gate_witness :
    validateCreate sampleBadBody ≠ [] ∧
    handleInputErrors validateCreate createProduct sampleBadBody store0
      = ({ status := 400,
           body := .errors
             [⟨"name", "El nombre de Producto no puede ir vacio"⟩,
              ⟨"price", "Valor no válido"⟩,
              ⟨"price", "Precio no válido"⟩] }, store0) := by
  refine ⟨by decide, ?_⟩
  rw [(validation_stage_gate validateCreate sampleBadBody store0).2
    (by decide) createProduct]
  decide

/-- C2: a create whose price is not strictly positive or whose name is the
empty string is answered 400, the store is unchanged, and the data-layer
create operation is never invoked (every handler yields the same outcome). -/
theorem create_rejected_not_persisted (b : CreateBody) (s : Store)
    (h : b.name = some "" ∨ ∃ n : Int, b.price = some (.num n) ∧ n ≤ 0) :
    (runCreate b s).1.status = 400 ∧ (runCreate b s).2 = s
    ∧ ∀ handler, handleInputErrors validateCreate handler b s = runCreate b s := by
  have hne : validateCreate b ≠ [] := by
    rcases h with h | ⟨n, hp, hn⟩
    · simp [validateCreate, notEmptyName, h]
    · simp [validateCreate, positivePriceErrs, hp, Int.not_lt.mpr hn]
  have hrun := gate_fail validateCreate createProduct b s hne
  refine ⟨?_, ?_, ?_⟩
  · rw [runCreate, hrun]
  · rw [runCreate, hrun]
  · intro handler
    rw [runCreate, hrun, gate_fail validateCreate handler b s hne]

/-- C2 witness: the concrete body with empty name is rejected with 400 and
the empty store stays empty. -/
theorem create_rejected_not_persisted_witness :
    (runCreate sampleBadBody store0).1.status = 400
    ∧ (runCreate sampleBadBody store0).2 = store0
    ∧ ∀ handler, handleInputErrors validateCreate handler sampleBadBody store0
        = runCreate sampleBadBody store0 :=
  create_rejected_not_persisted sampleBadBody store0 (Or.inl rfl)

/-- C3: a create passing validation is answered 201 with the created record
under the data key, the record's id is the one the data layer assigns
(`nextId`), the record is persisted, and when the body does not supply
availability the stored and returned value is `true`. -/
theorem create_valid_created (b : CreateBody) (s : Store)
    (h : validateCreate b = []) :
    ∃ p : Product,
      (runCreate b s).1 = { status := 201, body := .dataRecord p }
      ∧ p.id = s.nextId
      ∧ p ∈ (runCreate b s).2.rows
      ∧ (b.availability = none → p.availability = true) := by
  rw [runCreate, gate_pass validateCreate createProduct b s h]
  refine ⟨_, rfl, rfl, ?_, ?_⟩
  · exact List.mem_cons_self _ _
  · intro ha
    simp [Store.createRecord, ha]

/-- C3 witness: the concrete valid body without availability yields 201, id 1
on the empty store, and availability true. -/
theorem create_valid_created_witness :
    ∃ p : Product,
      (runCreate sampleGoodBody store0).1 = { status := 201, body := .dataRecord p }
      ∧ p.id = store0.nextId
      ∧ p ∈ (runCreate sampleGoodBody store0).2.rows
      ∧ (sampleGoodBody.availability = none → p.availability = true) :=
  create_valid_created sampleGoodBody store0 (by decide)

/-- C4: a get-by-id whose integer id matches no stored record is answered 404
with exactly the body error "Producto No Encontrado", and the store is
unchanged. -/
theorem getById_absent_404 (i : Nat) (s : Store)
    (h : ∀ p ∈ s.rows, p.id ≠ i) :
    getProductById i s = ({ status := 404, body := .errMsg "Producto No Encontrado" }, s) := by
  have hfind : s.findByPk i = none := by
    refine List.find?_eq_none.mpr ?_
    intro p hp
    simp [h p hp]
  simp [getProductById, hfind, notFoundResponse]

/-- C4 witness: id 99 is absent from the sample store and gets the fixed 404
response, the store unchanged. -/
theorem getById_absent_404_witness :
    getProductById 99 sampleStore
      = ({ status := 404, body := .errMsg "Producto No Encontrado" }, sampleStore) :=
  getById_absent_404 99 sampleStore (by decide)

/-- C9: the CORS gate allows a request exactly when the Origin header equals
FRONTEND_URL; a request with no Origin header is rejected with the CORS error
whenever FRONTEND_URL is set, and allowed when FRONTEND_URL is unset. -/
theorem cors_gate (o f : Option String) :
    (corsOrigin o f = .ok () ↔ o = f)
    ∧ (∀ u : String, corsOrigin none (some u) = .error "Error de CORS")
    ∧ (corsOrigin none none = .ok ()) := by
  refine ⟨?_, ?_, ?_⟩
  · by_cases h : o = f <;> simp [corsOrigin, h]
  · intro u
    simp [corsOrigin]
  · simp [corsOrigin]

/-- C9 witness: the gate at concrete origins — matching origin allowed,
missing origin with a configured frontend rejected. -/
theorem cors_gate_witness :
    corsOrigin (some "http://localhost:5173") (some "http://localhost:5173")
      = .ok ()
    ∧ corsOrigin none (some "http://localhost:5173") = .error "Error de CORS" :=
  ⟨(cors_gate (some "http://localhost:5173") (some "http://localhost:5173")).1.mpr rfl,
   (cors_gate none (some "http://localhost:5173")).2.1 "http://localhost:5173"⟩

/-- C10: a failed authenticate or sync is caught inside connectDB and only
logged; the server object is created regardless, and a request served against
the failed connection propagates the fault unhandled. -/
theorem startup_survives_db_failure :
    (∀ auth sync : Except String Unit,
      (startServer auth sync).serverCreated = true)
    ∧ (∀ (e : String) (sync : Except String Unit),
      connectDB (.error e) sync = [dbErrorLog])
    ∧ (∀ e : String, connectDB (.ok ()) (.error e) = [dbErrorLog])
    ∧ (∀ (e : String) (handle : Store → Response × Store),
      handleWithDb (.error e) handle = .error e) := by
  refine ⟨fun _ _ => rfl, fun _ _ => rfl, fun _ => rfl, fun _ _ => rfl⟩

lemma find?_id_unique (i : Nat) :
    ∀ (l : List Product) (p : Product), p ∈ l → p.id = i →
      (l.map Product.id).Nodup → l.find? (fun q => q.id == i) = some p := by
  intro l
  induction l with
  | nil =>
    intro p hp _ _
    exact absurd hp (List.not_mem_nil p)
  | cons a l ih =>
    intro p hp hpi hnd
    rw [List.map_cons, List.nodup_cons] at hnd
    by_cases ha : a.id = i
    · rw [List.find?_cons_of_pos _ (by simpa using ha)]
      rcases List.mem_cons.mp hp with rfl | hpl
      · rfl
      · exfalso
        have : p.id ∈ l.map Product.id := List.mem_map_of_mem _ hpl
        rw [hpi, ← ha] at this
        exact hnd.1 this
    · rw [List.find?_cons_of_neg _ (by simpa using ha)]
      rcases List.mem_cons.mp hp with rfl | hpl
      · exact absurd hpi ha
      · exact ih p hpl hpi hnd.2

lemma findByPk_eq_some (s : Store) (i : Nat) (p : Product)
    (hmem : p ∈ s.rows) (hid : p.id = i)
    (hnodup : (s.rows.map Product.id).Nodup) :
    s.findByPk i = some p :=
  find?_id_unique i s.rows p hmem hid hnodup

lemma eraseP_id_not_mem (i : Nat) :
    ∀ l : List Product, (l.map Product.id).Nodup →
      ∀ q ∈ l.eraseP (fun r => r.id == i), q.id ≠ i := by
  intro l
  induction l with
  | nil =>
    intro _ q hq
    exact absurd hq (List.not_mem_nil q)
  | cons a l ih =>
    intro hnd q hq
    rw [List.map_cons, List.nodup_cons] at hnd
    by_cases ha : a.id = i
    · rw [List.eraseP_cons_of_pos (by simpa using ha)] at hq
      intro hqi
      have : q.id ∈ l.map Product.id := List.mem_map_of_mem _ hq
      rw [hqi, ← ha] at this
      exact hnd.1 this
    · rw [List.eraseP_cons_of_neg (by simpa using ha)] at hq
      rcases List.mem_cons.mp hq with rfl | hql
      · exact ha
      · exact ih hnd.2 q hql

/-- C5: a toggle on an existing record responds 200 with the record whose
availability is negated and whose id, name and price are unchanged; that
toggled record is persisted, the stored record with that id is exactly the
toggled record, every other record is untouched in both directions, the id
counter is unchanged, and a request body cannot influence the outcome. -/
theorem patch_toggles_availability (i : Nat) (s : Store) (p : Product)
    (hmem : p ∈ s.rows) (hid : p.id = i)
    (hnodup : (s.rows.map Product.id).Nodup) :
    (runPatch i s).1
      = { status := 200,
          body := .dataRecord { p with availability := !p.availability } }
    ∧ ({ p with availability := !p.availability } ∈ (runPatch i s).2.rows)
    ∧ (∀ q ∈ (runPatch i s).2.rows, q.id = i →
        q = { p with availability := !p.availability })
    ∧ (∀ q ∈ s.rows, q.id ≠ i → q ∈ (runPatch i s).2.rows)
    ∧ (∀ q ∈ (runPatch i s).2.rows, q.id ≠ i → q ∈ s.rows)
    ∧ (runPatch i s).2.nextId = s.nextId
    ∧ (∀ b : UpdateBody, runPatchWithBody i b s = runPatch i s) := by
  have hfind : s.findByPk i = some p := findByPk_eq_some s i p hmem hid hnodup
  have hrun : runPatch i s
      = ({ status := 200,
           body := .dataRecord { p with availability := !p.availability } },
         { s with rows := (s.rows.map
            (fun q => if q.id = i then { p with availability := !p.availability } else q)) }) := by
    simp only [runPatch, updateAvailability, hfind]
  refine ⟨?_, ?_, ?_, ?_, ?_, ?_, fun _ => rfl⟩
  · rw [hrun]
  · rw [hrun]
    have hfp : (fun q => if q.id = i then { p with availability := !p.availability } else q) p
        = { p with availability := !p.availability } := if_pos hid
    simpa [hfp] using
      List.mem_map_of_mem (fun q => if q.id = i then { p with availability := !p.availability } else q) hmem
  · rw [hrun]
    intro q hq hqi
    rcases List.mem_map.mp hq with ⟨q₀, hq₀, hfq⟩
    by_cases h : q₀.id = i
    · rw [if_pos h] at hfq
      exact hfq.symm
    · rw [if_neg h] at hfq
      subst hfq
      exact absurd hqi h
  · rw [hrun]
    intro q hq hqi
    simpa [if_neg hqi] using
      List.mem_map_of_mem (fun q' => if q'.id = i then { p with availability := !p.availability } else q') hq
  · rw [hrun]
    intro q hq hqi
    rcases List.mem_map.mp hq with ⟨q₀, hq₀, hfq⟩
    by_cases h : q₀.id = i
    · rw [if_pos h] at hfq
      subst hfq
      exact absurd hid hqi
    · rw [if_neg h] at hfq
      subst hfq
      exact hq₀
  · rw [hrun]

/-- C5 witness: toggling id 2 of the sample store flips only availability of
that record, stores the flipped record, and ignores any supplied body. -/
theorem patch_toggles_availability_witness :
    (runPatch 2 sampleStore).1
      = { status := 200,
          body := .dataRecord
            { id := 2, name := "Teclado", price := 80, availability := true } }
    ∧ (({ id := 2, name := "Teclado", price := 80, availability := true } : Product)
        ∈ (runPatch 2 sampleStore).2.rows)
    ∧ (∀ q ∈ (runPatch 2 sampleStore).2.rows, q.id = 2 →
        q = { id := 2, name := "Teclado", price := 80, availability := true })
    ∧ (∀ q ∈ sampleStore.rows, q.id ≠ 2 → q ∈ (runPatch 2 sampleStore).2.rows)
    ∧ (∀ q ∈ (runPatch 2 sampleStore).2.rows, q.id ≠ 2 → q ∈ sampleStore.rows)
    ∧ (runPatch 2 sampleStore).2.nextId = sampleStore.nextId
    ∧ (∀ b : UpdateBody, runPatchWithBody 2 b sampleStore = runPatch 2 sampleStore) :=
  patch_toggles_availability 2 sampleStore
    { id := 2, name := "Teclado", price := 80, availability := false }
    (by decide) rfl (by decide)

/-- C6: deleting an existing record answers 200 with "Producto Eliminado";
repeating the delete on the same id answers 404 with the fixed not-found
body, leaves the store unchanged, and stays so on every later attempt. -/
theorem delete_then_404 (i : Nat) (s : Store) (p : Product)
    (hmem : p ∈ s.rows) (hid : p.id = i)
    (hnodup : (s.rows.map Product.id).Nodup) :
    (deleteProduct i s).1 = { status := 200, body := .dataMsg "Producto Eliminado" }
    ∧ (deleteProduct i (deleteProduct i s).2).1
        = { status := 404, body := .errMsg "Producto No Encontrado" }
    ∧ (deleteProduct i (deleteProduct i s).2).2 = (deleteProduct i s).2
    ∧ ∀ n : Nat, (fun t => (deleteProduct i t).2)^[n] (deleteProduct i s).2
        = (deleteProduct i s).2 := by
  have hfind : s.findByPk i = some p := findByPk_eq_some s i p hmem hid hnodup
  have h1 : deleteProduct i s
      = ({ status := 200, body := .dataMsg "Producto Eliminado" },
         { s with rows := s.rows.eraseP (fun q => q.id == i) }) := by
    simp only [deleteProduct, hfind]
  have hs1 : (deleteProduct i s).2
      = { s with rows := s.rows.eraseP (fun q => q.id == i) } := by
    rw [h1]
  have hfind2 : ({ s with rows := s.rows.eraseP (fun q => q.id == i) } : Store).findByPk i
      = none := by
    simp only [Store.findByPk]
    refine List.find?_eq_none.mpr ?_
    intro q hq
    simpa using eraseP_id_not_mem i s.rows hnodup q hq
  have h2 : deleteProduct i ({ s with rows := s.rows.eraseP (fun q => q.id == i) } : Store)
      = ({ status := 404, body := .errMsg "Producto No Encontrado" },
         { s with rows := s.rows.eraseP (fun q => q.id == i) }) := by
    simp only [deleteProduct, hfind2, notFoundResponse]
  have hfix : (deleteProduct i (deleteProduct i s).2).2 = (deleteProduct i s).2 := by
    rw [hs1, h2]
  refine ⟨?_, ?_, hfix, ?_⟩
  · rw [h1]
  · rw [hs1, h2]
  · intro n
    exact Function.iterate_fixed hfix n

/-- C6 witness: delete id 1 of the sample store, then delete it again — 200
then 404 with the store fixed. -/
theorem delete_then_404_witness :
    (deleteProduct 1 sampleStore).1
      = { status := 200, body := .dataMsg "Producto Eliminado" }
    ∧ (deleteProduct 1 (deleteProduct 1 sampleStore).2).1
        = { status := 404, body := .errMsg "Producto No Encontrado" }
    ∧ (deleteProduct 1 (deleteProduct 1 sampleStore).2).2
        = (deleteProduct 1 sampleStore).2
    ∧ ∀ n : Nat, (fun t => (deleteProduct 1 t).2)^[n] (deleteProduct 1 sampleStore).2
        = (deleteProduct 1 sampleStore).2 :=
  delete_then_404 1 sampleStore
    { id := 1, name := "Monitor", price := 300, availability := true }
    (by decide) rfl (by decide)

/-- C7: for every store whose persisted ids are unique (the data-model
invariant), the list operation answers 200, its data payload is a permutation
of all stored records sorted by id in strictly descending order, and the
store is unchanged. -/
theorem list_ordered_desc (s : Store)
    (hnodup : (s.rows.map Product.id).Nodup) :
    (getProducts s).1.status = 200
    ∧ (∃ l : List Product,
        (getProducts s).1.body = .dataRecords l
        ∧ l.Perm s.rows
        ∧ l.Pairwise (fun a b => b.id < a.id))
    ∧ (getProducts s).2 = s := by
  refine ⟨rfl, ⟨s.findAllDesc, rfl, ?_, ?_⟩, rfl⟩
  · exact List.perm_insertionSort idGe s.rows
  · have hs : s.findAllDesc.Pairwise idGe := List.sorted_insertionSort idGe s.rows
    have hperm : s.findAllDesc.Perm s.rows := List.perm_insertionSort idGe s.rows
    have hnd : (s.findAllDesc.map Product.id).Nodup :=
      ((hperm.map Product.id).nodup_iff).mpr hnodup
    have hne : s.findAllDesc.Pairwise (fun a b => a.id ≠ b.id) :=
      List.pairwise_map.mp hnd
    exact (hs.and hne).imp
      (fun h => Nat.lt_of_le_of_ne h.1 (fun e => h.2 e.symm))

/-- C7 witness: the sample store (inserted in ascending id order) is listed
as a strictly descending permutation of its rows. -/
theorem list_ordered_desc_witness :
    (getProducts sampleStore).1.status = 200
    ∧ (∃ l : List Product,
        (getProducts sampleStore).1.body = .dataRecords l
        ∧ l.Perm sampleStore.rows
        ∧ l.Pairwise (fun a b => b.id < a.id))
    ∧ (getProducts sampleStore).2 = sampleStore :=
  list_ordered_desc sampleStore (by decide)

lemma notEmptyName_eq_nil (o : Option String) (h : notEmptyName o = []) :
    ∃ s, o = some s ∧ s ≠ "" := by
  match o with
  | none => simp [notEmptyName] at h
  | some str =>
    refine ⟨str, rfl, ?_⟩
    intro he
    subst he
    simp [notEmptyName] at h

lemma positivePrice_eq_nil (o : Option PriceField) (h : positivePriceErrs o = []) :
    ∃ n : Int, o = some (.num n) ∧ 0 < n := by
  match o with
  | some (.num n) =>
    refine ⟨n, rfl, ?_⟩
    by_contra hn
    simp [positivePriceErrs, hn] at h
  | some .nonNumeric => simp [positivePriceErrs] at h
  | none => simp [positivePriceErrs] at h

lemma booleanAvailability_eq_nil (o : Option BoolField)
    (h : booleanAvailabilityErrs o = []) :
    ∃ v : Bool, o = some (.bool v) := by
  match o with
  | some (.bool v) => exact ⟨v, rfl⟩
  | some .nonBoolean => simp [booleanAvailabilityErrs] at h
  | none => simp [booleanAvailabilityErrs] at h

lemma validateCreate_eq_nil (b : CreateBody) (h : validateCreate b = []) :
    (∃ s, b.name = some s ∧ s ≠ "")
    ∧ ∃ n : Int, b.price = some (.num n) ∧ 0 < n := by
  rw [validateCreate, List.append_eq_nil, List.append_eq_nil] at h
  exact ⟨notEmptyName_eq_nil _ h.1, positivePrice_eq_nil _ h.2.2⟩

lemma validateUpdate_eq_nil (b : UpdateBody) (h : validateUpdate b = []) :
    (∃ s, b.name = some s ∧ s ≠ "")
    ∧ (∃ n : Int, b.price = some (.num n) ∧ 0 < n)
    ∧ ∃ v : Bool, b.availability = some (.bool v) := by
  rw [validateUpdate, List.append_eq_nil, List.append_eq_nil,
    List.append_eq_nil] at h
  exact ⟨notEmptyName_eq_nil _ h.1.1, positivePrice_eq_nil _ h.1.2.2,
    booleanAvailability_eq_nil _ h.2⟩

lemma goodRecord_createRecord (b : CreateBody) (s : Store)
    (hv : validateCreate b = []) : GoodRecord (s.createRecord b).1 := by
  obtain ⟨⟨nm, hnm, hne⟩, n, hpr, hpos⟩ := validateCreate_eq_nil b hv
  constructor
  · show 0 < (s.createRecord b).1.price
    simp only [Store.createRecord, hpr]
    exact hpos
  · show (s.createRecord b).1.name ≠ ""
    simp only [Store.createRecord, hnm, Option.getD_some]
    exact hne

lemma storeInv_preserved (op : Op) (s : Store) (h : StoreInv s) :
    StoreInv (applyOp s op) := by
  cases op with
  | create b =>
    show StoreInv (runCreate b s).2
    by_cases hv : validateCreate b = []
    · rw [runCreate, gate_pass _ _ _ _ hv]
      intro q hq
      have hrows : (createProduct b s).2.rows = (s.createRecord b).1 :: s.rows := rfl
      rw [hrows] at hq
      rcases List.mem_cons.mp hq with rfl | hql
      · exact goodRecord_createRecord b s hv
      · exact h q hql
    · rw [runCreate, gate_fail _ _ _ _ hv]
      exact h
  | update i b =>
    show StoreInv (runUpdate i b s).2
    by_cases hv : validateUpdate b = []
    · rw [runUpdate, gate_pass _ _ _ _ hv]
      cases hf : s.findByPk i with
      | none =>
        simp only [updateProduct, hf]
        exact h
      | some p₀ =>
        simp only [updateProduct, hf]
        intro q hq
        obtain ⟨⟨nm, hnm, hne⟩, ⟨n, hpr, hpos⟩, v, hav⟩ := validateUpdate_eq_nil b hv
        rcases List.mem_map.mp hq with ⟨q₀, hq₀, hfq⟩
        by_cases hqi : q₀.id = i
        · rw [if_pos hqi] at hfq
          subst hfq
          constructor
          · show (0 : Int) < (match b.price with | some (.num n) => n | _ => p₀.price)
            simp only [hpr]
            exact hpos
          · show b.name.getD p₀.name ≠ ""
            simp only [hnm, Option.getD_some]
            exact hne
        · rw [if_neg hqi] at hfq
          subst hfq
          exact h q₀ hq₀
    · rw [runUpdate, gate_fail _ _ _ _ hv]
      exact h
  | toggle i =>
    show StoreInv (runPatch i s).2
    cases hf : s.findByPk i with
    | none =>
      simp only [runPatch, updateAvailability, hf]
      exact h
    | some p₀ =>
      simp only [runPatch, updateAvailability, hf]
      intro q hq
      rcases List.mem_map.mp hq with ⟨q₀, hq₀, hfq⟩
      by_cases hqi : q₀.id = i
      · rw [if_pos hqi] at hfq
        subst hfq
        have hp₀ : GoodRecord p₀ := h p₀ (List.mem_of_find?_eq_some hf)
        exact ⟨hp₀.1, hp₀.2⟩
      · rw [if_neg hqi] at hfq
        subst hfq
        exact h q₀ hq₀

lemma storeInv_applyOps (ops : List Op) :
    ∀ s : Store, StoreInv s → StoreInv (applyOps s ops) := by
  induction ops with
  | nil => intro s h; exact h
  | cons op ops ih =>
    intro s h
    exact ih (applyOp s op) (storeInv_preserved op s h)

/-- C8 (amended): after any sequence of routed create, full-update, and
toggle operations starting from the empty store, every persisted record has
price > 0 and a non-empty name (availability is a non-null boolean by type);
the validation stage is the sole enforcement point. The maximum-length-100
constraint on name is NOT enforced by the validation stage, so no such bound
holds over persisted records (see the counterexample). -/
theorem stored_records_validated (ops : List Op) :
    ∀ p ∈ (applyOps store0 ops).rows, 0 < p.price ∧ p.name ≠ "" := by
  have h0 : StoreInv store0 := by
    intro p hp
    exact absurd hp (List.not_mem_nil p)
  exact storeInv_applyOps ops store0 h0

/-- C8 witness: after one valid create on the empty store, the persisted
record has positive price and non-empty name. -/
theorem stored_records_validated_witness :
    (({ id := 1, name := "Mouse - testing", price := 50, availability := true } : Product)
        ∈ (applyOps store0 [Op.create sampleGoodBody]).rows)
    ∧ (0 < ({ id := 1, name := "Mouse - testing", price := 50, availability := true } : Product).price
        ∧ ({ id := 1, name := "Mouse - testing", price := 50, availability := true } : Product).name ≠ "") :=
  ⟨by decide, stored_records_validated [Op.create sampleGoodBody] _ (by decide)⟩

/-- C8 counterexample: a create whose name has 101 characters passes every
check the create validation chain declares and is persisted, so the
claimed bound `name.length ≤ 100` fails over the reachable stores (the
length 100 appears only as the data layer's column width, which the claim
says does not re-validate). -/
theorem name_length_bound_fails :
    validateCreate longNameBody = []
    ∧ ¬ ∀ ops : List Op, ∀ p ∈ (applyOps store0 ops).rows, p.name.length ≤ 100 := by
  constructor
  · decide
  · intro hall
    have hmem : ({ id := 1, name := longName, price := 50, availability := true } : Product)
        ∈ (applyOps store0 [Op.create longNameBody]).rows := by decide
    have hle := hall [Op.create longNameBody] _ hmem
    have hlen : ¬ (longName.length ≤ 100) := by decide
    exact hlen hle

end ProductApi
